import Mathlib

/-!
Verification of the media-encoder core (src/src/encoder/encoder.cpp).

This file shallowly embeds the data model and the operations of
`MediaEncoder`: option validation, audio/video bitrate planning, the
pixel-ratio computation, command construction (`StartCompression`),
progress parsing (`UpdateProgress`), terminal-outcome classification
(`EndCompression`), diagnostic extraction (`parseOutput`), and a trace
model of the notification ordering.

Conventions of the embedding:
- C++ `double` fields are modelled as `ℚ` (the computations at issue are
  exact arithmetic; no claim depends on floating-point rounding).
- `std::optional<T>` is `Option T`.  Dereferencing (`operator*`) an
  optional is modelled by `Option.bind` in an `Option`-valued embedding:
  a `none` result means the C++ program dereferenced an empty optional,
  which is undefined behavior.
- `double` → `int`/`long` conversions truncate toward zero
  (`cppTruncToInt`).
- Qt string formatting of numbers (`QString::number`) is modelled by
  `toString` on `ℚ`/`ℤ`; no claim inspects the rendered digits.
-/

/-- C++ conversion from a real (double) value to an integer type:
truncation toward zero. -/
def cppTruncToInt (q : ℚ) : ℤ :=
  if 0 ≤ q then ⌊q⌋ else ⌈q⌉

/-- A codec catalog entry (encoder.hpp `Codec`): display name and the
library name used on the command line (`videoCodec->libraryName`). -/
structure Codec where
  name : String
  libraryName : String
deriving DecidableEq

/-- An output container (encoder.hpp `Container`): the format name used
for the `-f` flag (`container->formatName`). -/
structure Container where
  formatName : String
deriving DecidableEq

/-- Probed facts about the input file (formats/metadata.hpp `Metadata`).
Only the fields read by the embedded operations are modelled: `width`,
`height`, `durationSeconds`, `aspectRatioX`, `aspectRatioY` (all
`double` in the source).  The remaining fields (existing bitrates, codec
names, frame rate, container) are never read by the code under
verification. -/
structure Metadata where
  width : ℚ
  height : ℚ
  durationSeconds : ℚ
  aspectRatioX : ℚ
  aspectRatioY : ℚ
deriving DecidableEq

/-- The immutable compression request (encoder.hpp `Options`).  Field
defaults mirror the C++ member initializers: empty optionals, and the
tunables 64 / 16 / 256 / 0.02. -/
structure Options where
  inputPath : String := ""
  outputPath : String := ""
  videoCodec : Option Codec := none
  audioCodec : Option Codec := none
  container : Option Container := none
  sizeKbps : Option ℚ := none
  audioQualityPercent : Option ℚ := none
  outputWidth : Option ℤ := none
  outputHeight : Option ℤ := none
  aspectRatio : Option (ℤ × ℤ) := none
  fps : Option ℤ := none
  speed : Option ℚ := none
  customArguments : Option String := none
  inputMetadata : Option Metadata := none
  minVideoBitrateKbps : ℚ := 64
  minAudioBitrateKbps : ℚ := 16
  maxAudioBitrateKbps : ℚ := 256
  overshootCorrectionPercent : ℚ := 2 / 100

/-- The planner's output (encoder.hpp `ComputedOptions`). -/
structure ComputedOptions where
  videoBitrateKbps : Option ℚ := none
  audioBitrateKbps : Option ℚ := none
deriving DecidableEq

/- ===== validateOptions (encoder.cpp lines 321-370) =====
Each rule mirrors one `if` that assigns the `error` string; the request
is accepted exactly when no rule fires (the `error` string stays empty). -/

/-- Rule: neither a video nor an audio codec was selected (line 325). -/
def ruleNoCodec (o : Options) : Bool :=
  o.videoCodec.isNone && o.audioCodec.isNone

/-- Rule: the container check (line 328).  The source condition is
`!videoCodec.has_value() && !container.has_value()` — it fires when NO
container is set, although its error message speaks of a selected
container. -/
def ruleContainerCheck (o : Options) : Bool :=
  o.videoCodec.isNone && o.container.isNone

/-- Rule: negative output width (line 331). -/
def ruleWidth (o : Options) : Bool :=
  match o.outputWidth with
  | some w => decide (w < 0)
  | none => false

/-- Rule: negative output height (line 335). -/
def ruleHeight (o : Options) : Bool :=
  match o.outputHeight with
  | some h => decide (h < 0)
  | none => false

/-- Rule: non-positive horizontal aspect component (line 341). -/
def ruleAspectX (o : Options) : Bool :=
  match o.aspectRatio with
  | some p => decide (p.1 ≤ 0)
  | none => false

/-- Rule: non-positive vertical aspect component (line 344). -/
def ruleAspectY (o : Options) : Bool :=
  match o.aspectRatio with
  | some p => decide (p.2 ≤ 0)
  | none => false

/-- Rule: negative frame rate (line 349). -/
def ruleFps (o : Options) : Bool :=
  match o.fps with
  | some f => decide (f < 0)
  | none => false

/-- Rule: negative speed (line 355). -/
def ruleSpeed (o : Options) : Bool :=
  match o.speed with
  | some s => decide (s < 0)
  | none => false

/-- A character accepted by the custom-arguments pattern of line 360,
a negated character class listing space, hyphen, slash, `a-z`, `0-9`
(written with the hyphen directly between the space and the slash):
inside a character class that spelling makes `space` to `slash` a RANGE,
so the accepted set is the ASCII range 0x20..0x2F (space and the
punctuation up to slash), lowercase letters, and digits. -/
def allowedChar (c : Char) : Bool :=
  (decide (' ' ≤ c) && decide (c ≤ '/'))
  || (decide ('a' ≤ c) && decide (c ≤ 'z'))
  || (decide ('0' ≤ c) && decide (c ≤ '9'))

/-- Rule: custom arguments contain a character matched by the negated
class of line 359, i.e. a character outside `allowedChar`. -/
def ruleCustomArgs (o : Options) : Bool :=
  match o.customArguments with
  | some s => s.data.any (fun c => ! allowedChar c)
  | none => false

/-- `MediaEncoder::validateOptions`: accept exactly when no rule set the
error string. -/
def validateOptions (o : Options) : Bool :=
  ! (ruleNoCodec o || ruleContainerCheck o || ruleWidth o || ruleHeight o
     || ruleAspectX o || ruleAspectY o || ruleFps o || ruleSpeed o
     || ruleCustomArgs o)

/-- The first eight rules (everything except the custom-arguments
check), used to isolate the custom-arguments behavior. -/
def otherRulesPass (o : Options) : Bool :=
  ! (ruleNoCodec o || ruleContainerCheck o || ruleWidth o || ruleHeight o
     || ruleAspectX o || ruleAspectY o || ruleFps o || ruleSpeed o)

/- ===== Bitrate planning (encoder.cpp lines 214-221, 223-246, 295-303) ===== -/

/-- `MediaEncoder::computeAudioBitrate` (lines 214-221):
`qMax(minAudioBitrateKbps, audioQualityPercent.value_or(1) * maxAudioBitrateKbps)`. -/
def computeAudioBitrate (o : Options) (c : ComputedOptions) : ComputedOptions :=
  { c with
    audioBitrateKbps := some (max o.minAudioBitrateKbps (o.audioQualityPercent.getD 1 * o.maxAudioBitrateKbps)) }

/-- `MediaEncoder::computePixelRatio` (lines 223-246).  The source reads:

    if (options.outputWidth.has_value()) {
        outputHeight = *options.outputHeight;
        outputWidth = outputHeight * metadata.aspectRatioX / metadata.aspectRatioY;
    } else {
        outputWidth = *options.outputWidth;
        outputHeight = outputWidth * metadata.aspectRatioX / metadata.aspectRatioY;
    }

So when `outputWidth` is set, `*options.outputHeight` is dereferenced
(empty unless `outputHeight` is also set) and the explicit width is
overwritten by a value derived from the height; when `outputWidth` is
unset, the else branch dereferences the empty `outputWidth` itself.
`none` marks these undefined-behavior dereferences, and also the
`aspectRatioY = 0` case (a double division producing inf/nan followed by
an int conversion, likewise undefined). -/
def computePixelRatio (o : Options) (md : Metadata) : Option ℚ :=
  let inputPixelCount : ℤ := cppTruncToInt (md.width * md.height)
  match o.outputWidth with
  | some _ =>
    match o.outputHeight with
    | some h =>
      if md.aspectRatioY = 0 then none
      else
        let w : ℤ := cppTruncToInt ((h : ℚ) * md.aspectRatioX / md.aspectRatioY)
        let outputPixelCount : ℚ := ((w * h : ℤ) : ℚ)
        some (if 0 < outputPixelCount ∧ outputPixelCount < (inputPixelCount : ℚ)
              then outputPixelCount / (inputPixelCount : ℚ)
              else 1)
    | none => none
  | none => none

/-- `MediaEncoder::ComputeVideoBitrate` (lines 295-303):
`qMax(minVideoBitrateKbps, pixelRatio * (sizeKbps / durationSeconds * (1 - overshootCorrectionPercent) - audioBitrate))`
with `audioBitrate = computed.audioBitrateKbps.value_or(0)`.  `none`
propagates an undefined-behavior dereference from `computePixelRatio`
or from `*options.sizeKbps`. -/
def computeVideoBitrate (o : Options) (audioComputed : Option ℚ) (md : Metadata) : Option ℚ := do
  let audioBitrateKbps : ℚ := audioComputed.getD 0
  let pixelRatio ← computePixelRatio o md
  let s ← o.sizeKbps
  let bitrateKbps : ℚ := s / md.durationSeconds * (1 - o.overshootCorrectionPercent)
  pure (max o.minVideoBitrateKbps (pixelRatio * (bitrateKbps - audioBitrateKbps)))

/-- The planning stage of `MediaEncoder::Encode` (lines 57-66): the audio
bitrate is computed exactly when an audio codec is selected; the video
bitrate is computed exactly when a video codec and a size target are
both present (flattening an undefined-behavior dereference inside
`ComputeVideoBitrate` to `none`). -/
def encodePlan (o : Options) (md : Metadata) : ComputedOptions :=
  let c0 : ComputedOptions := {}
  let c1 := if o.audioCodec.isSome then computeAudioBitrate o c0 else c0
  if o.videoCodec.isSome && o.sizeKbps.isSome then
    { c1 with videoBitrateKbps := computeVideoBitrate o c1.audioBitrateKbps md }
  else c1

/- ===== Command construction (encoder.cpp StartCompression, lines 71-158) ===== -/

/-- Rendering of a numeric value for the command line
(`QString::number`); the exact digit format is irrelevant to every
claim, only whether construction is defined. -/
def numStr (q : ℚ) : String := toString q

/-- The command-construction portion of `MediaEncoder::StartCompression`
(lines 75-148), as a total function: `none` means the source
dereferenced an empty optional (lines 79-81 `*computed.videoBitrateKbps`,
line 85 `*options.container`, line 92 `*options.fps`, line 148
`*options.customArguments`).  The output-file extension (resolved by an
external query to ffmpeg, lines 139-144) is passed in as `fileExtension`. -/
def startCompressionCommand (o : Options) (c : ComputedOptions) (fileExtension : String) : Option String := do
  let videoCodecParam : String :=
    match o.videoCodec with
    | some v => "-c:v " ++ v.libraryName
    | none => "-vn"
  let audioCodecParam : String :=
    match o.audioCodec with
    | some a => "-c:a " ++ a.libraryName
    | none => "-an"
  let videoBitrateParam : String ←
    match o.sizeKbps with
    | some _ => do
      let vb ← c.videoBitrateKbps
      pure ("-b:v " ++ numStr vb ++ "k")
    | none => pure ""
  let audioBitrateParam : String :=
    match c.audioBitrateKbps with
    | some ab => "-b:a " ++ numStr ab ++ "k"
    | none => ""
  let containerVal ← o.container
  let formatParam : String := "-f " ++ containerVal.formatName
  let fps0 ← o.fps
  let scaleAspect : String × String :=
    match o.outputWidth, o.outputHeight with
    | some w, some h => ("scale=" ++ toString w ++ ":" ++ toString h, "setsar=1/1")
    | some w, none => ("scale=" ++ toString w ++ ":-2", "")
    | none, some h => ("scale=-1:" ++ toString h, "")
    | none, none => ("", "")
  let scaleFilter : String := scaleAspect.1
  let aspectRatioFilter : String :=
    match o.aspectRatio with
    | some p => "setsar=" ++ toString p.2 ++ "/" ++ toString p.1
    | none => scaleAspect.2
  let speedFps : String × ℚ :=
    match o.speed with
    | some sp => ("setpts=" ++ numStr (1 / sp) ++ "*PTS", (fps0 : ℚ) * sp)
    | none => ("", (fps0 : ℚ))
  let speedFilter : String := speedFps.1
  let fpsFilter : String := if o.fps.isSome then "fps=" ++ numStr speedFps.2 else ""
  let videoFilters := [scaleFilter, aspectRatioFilter, speedFilter, fpsFilter].filter (· ≠ "")
  let videoFiltersParam : String :=
    if videoFilters.length > 0 then "-filter:v " ++ String.intercalate "," videoFilters else ""
  let audioSpeedFilter : String :=
    match o.speed with
    | some sp => "atempo=" ++ numStr sp
    | none => ""
  let audioFilters := [audioSpeedFilter].filter (· ≠ "")
  let audioFiltersParam : String :=
    if audioFilters.length > 0 then "-filter:a " ++ String.intercalate "," audioFilters else ""
  let outputPath : String := o.outputPath ++ "." ++ fileExtension
  let customArgs ← o.customArguments
  pure ("ffmpeg -i \"" ++ o.inputPath ++ "\" " ++ videoCodecParam ++ " " ++ audioCodecParam
    ++ " " ++ videoBitrateParam ++ " " ++ audioBitrateParam ++ " " ++ videoFiltersParam
    ++ " " ++ audioFiltersParam ++ " " ++ customArgs ++ " " ++ formatParam
    ++ " \"" ++ outputPath ++ "\" -y")

/- ===== Progress parsing (encoder.cpp UpdateProgress, lines 161-177) ===== -/

/-- Two decimal digit characters to a number. -/
def twoDigits (a b : Char) : ℕ :=
  10 * (a.toNat - 48) + (b.toNat - 48)

/-- Match the pattern of the progress regex
`time=([0-9][0-9]:[0-9][0-9]:[0-9][0-9].[0-9][0-9])` at the head of the
character list; the dot in the pattern matches any character except a
newline.  Returns the captured hours, minutes, seconds and the
separator character standing where the dot matched. -/
def matchTimeAt : List Char → Option (ℕ × ℕ × ℕ × Char)
  | 't' :: 'i' :: 'm' :: 'e' :: '=' ::
    h1 :: h2 :: c1 :: m1 :: m2 :: c2 :: s1 :: s2 :: sep :: f1 :: f2 :: _ =>
    if h1.isDigit && h2.isDigit && c1 == ':' && m1.isDigit && m2.isDigit && c2 == ':'
       && s1.isDigit && s2.isDigit && sep != '\n' && f1.isDigit && f2.isDigit then
      some (twoDigits h1 h2, twoDigits m1 m2, twoDigits s1 s2, sep)
    else none
  | _ => none

/-- Leftmost match of the progress regex in a chunk of process output. -/
def findTimeMatch : List Char → Option (ℕ × ℕ × ℕ × Char)
  | [] => none
  | c :: rest =>
    match matchTimeAt (c :: rest) with
    | some r => some r
    | none => findTimeMatch rest

/-- Seconds value of the captured timestamp, as computed from
`QTime::fromString` (line 172-173): when the capture is a valid time
(the separator really is a dot, hours below 24, minutes and seconds
below 60) this is `second + minute * 60 + hour * 3600`; when `QTime`
rejects the capture, `hour()`, `minute()` and `second()` each return -1,
giving -3661. -/
def timestampSeconds (hh mm ss : ℕ) (sep : Char) : ℤ :=
  if sep == '.' && decide (hh < 24) && decide (mm < 60) && decide (ss < 60) then
    (ss : ℤ) + (mm : ℤ) * 60 + (hh : ℤ) * 3600
  else -3661

/-- `MediaEncoder::UpdateProgress` (lines 161-177): append the chunk to
the accumulated output; if the progress regex matches, emit
`currentDuration * 100 / mediaDuration` truncated to `int`, else emit
nothing.  (The source computes the quotient in `double` and assigns it
to `int`; for `mediaDuration = 0` the source produces a non-finite
double whose `int` conversion is undefined — every claim assumes a
positive duration.) -/
def updateProgress (mediaDuration : ℚ) (buffer line : String) : String × Option ℤ :=
  (buffer ++ line,
   match findTimeMatch line.data with
   | none => none
   | some (hh, mm, ss, sep) =>
     some (cppTruncToInt ((timestampSeconds hh mm ss sep : ℚ) * 100 / mediaDuration)))

/- ===== Terminal outcome and notification trace =====
(encoder.cpp constructor lines 18-26, StartCompression lines 71-158,
EndCompression lines 179-205) -/

/-- A notification emitted through the encoder's signals:
`encodingStarted`, `encodingProgressUpdate`, `encodingSucceeded`,
`encodingFailed`. -/
inductive Notif where
  | started (videoBitrateKbps audioBitrateKbps : ℚ)
  | progress (percent : ℤ)
  | succeeded
  | failed
deriving DecidableEq

/-- Whether a notification is terminal (succeeded or failed). -/
def isTerminal : Notif → Bool
  | Notif.succeeded => true
  | Notif.failed => true
  | _ => false

/-- `MediaEncoder::EndCompression` (lines 179-205): a non-zero exit code
emits `encodingFailed`; a zero exit code whose declared output file
cannot be opened for reading also emits `encodingFailed`; only a zero
exit with a readable output file emits `encodingSucceeded`.  Whether the
file can be opened is the `canOpen` oracle. -/
def endCompressionNotif (exitCode : ℤ) (canOpen : Bool) : Notif :=
  if exitCode ≠ 0 then Notif.failed
  else if canOpen then Notif.succeeded
  else Notif.failed

/-- An external event delivered to the encoder while a request runs:
an incremental-output chunk (`QProcess::readyRead`), process exit
(`QProcess::finished`, with the readability of the output file as the
filesystem oracle), or a process-level error
(`QProcess::errorOccurred`). -/
inductive PEvent where
  | readyRead (chunk : String)
  | finished (exitCode : ℤ) (canOpen : Bool)
  | procError
deriving DecidableEq

/-- Whether an event is an incremental-output event. -/
def isReadyRead : PEvent → Bool
  | PEvent.readyRead _ => true
  | _ => false

/-- The encoder's mutable state for one request: whether the
`readyRead` connection (`processUpdateConnection`) and the `finished`
connection (`processFinishedConnection`) are connected, and the
accumulated-output buffer. -/
structure OrchState where
  updateConn : Bool
  finishedConn : Bool
  buffer : String
deriving DecidableEq

/-- One event delivered to the encoder: `readyRead` runs
`UpdateProgress` while its connection is live (lines 150-152);
`finished` runs `EndCompression`, which disconnects both connections
and clears the buffer on every terminal path (lines 179-205);
`errorOccurred` always emits `encodingFailed` because the connection
made in the constructor (lines 23-25) is never disconnected. -/
def stepEvent (mediaDuration : ℚ) (s : OrchState) : PEvent → OrchState × List Notif
  | PEvent.readyRead chunk =>
    if s.updateConn then
      (⟨s.updateConn, s.finishedConn, (updateProgress mediaDuration s.buffer chunk).1⟩,
       ((updateProgress mediaDuration s.buffer chunk).2.map Notif.progress).toList)
    else (s, [])
  | PEvent.finished exitCode canOpen =>
    if s.finishedConn then
      (⟨false, false, ""⟩, [endCompressionNotif exitCode canOpen])
    else (s, [])
  | PEvent.procError => (s, [Notif.failed])

/-- Deliver a list of events in order, collecting the notifications. -/
def runEvents (mediaDuration : ℚ) : OrchState → List PEvent → List Notif
  | _, [] => []
  | s, e :: rest =>
    (stepEvent mediaDuration s e).2 ++ runEvents mediaDuration (stepEvent mediaDuration s e).1 rest

/-- The notification trace of one compression request:
`StartCompression` emits `encodingStarted` first (line 73), connects
both handlers, and starts the process; the events then arrive. -/
def encodeTrace (mediaDuration videoKbps audioKbps : ℚ) (events : List PEvent) : List Notif :=
  Notif.started videoKbps audioKbps :: runEvents mediaDuration ⟨true, true, ""⟩ events

/- ===== Diagnostic extraction (encoder.cpp parseOutput, lines 305-319) ===== -/

/-- The marker ffmpeg prints when interactive progress output begins;
`parseOutput` splits the buffer on it and keeps the tail. -/
def progressMarker : String := "Press [q] to stop, [?] for help"

/-- The fallback stream-identifier marker. -/
def streamMarker : String := "[0][0][0][0]"

/-- Split a character list on a (non-empty) separator, keeping empty
parts — the semantics of `QString::split` with its default
`KeepEmptyParts`.  `fuel` bounds the recursion (the caller passes the
list length, more than enough since every step consumes at least one
character). -/
def splitOnGo (sep : List Char) : ℕ → List Char → List Char → List (List Char)
  | _, [], acc => [acc.reverse]
  | 0, l, acc => [acc.reverse ++ l]
  | fuel + 1, c :: rest, acc =>
    if sep.isPrefixOf (c :: rest) then
      acc.reverse :: splitOnGo sep fuel ((c :: rest).drop sep.length) []
    else
      splitOnGo sep fuel rest (c :: acc)

/-- Split a character list on a separator (`QString::split`). -/
def splitOnChars (sep l : List Char) : List (List Char) :=
  splitOnGo sep (l.length + 1) l []

/-- The tail selection of `parseOutput` (lines 307-311): split on the
progress marker; when that produces a single piece, split instead on
the fallback marker; keep the last piece.  (`QString::split` never
returns an empty list, and neither does `splitOnChars`.) -/
def splitTail (output : String) : String :=
  let pieces := splitOnChars progressMarker.data output.data
  let pieces := if pieces.length == 1 then splitOnChars streamMarker.data output.data else pieces
  String.mk (pieces.getLastD [])

/-- PCRE `\s`: space, tab, newline, carriage return, vertical tab,
form feed. -/
def isWsChar (c : Char) : Bool :=
  c == ' ' || c == '\t' || c == '\n' || c == '\r' || c == '\x0b' || c == '\x0c'

/-- Index of the last occurrence of a character in a list. -/
def lastIdxOf : List Char → Char → Option ℕ
  | [], _ => none
  | c :: rest, t =>
    match lastIdxOf rest t with
    | some i => some (i + 1)
    | none => if c == t then some 0 else none

/-- Backtracking for the recursive alternative of the diagnostic
regex (`dash space whitespace+ (recurse)`): try the longest whitespace
run first, then shorter ones; on success the match length is the dash,
the space, the `j` whitespace characters, and the recursive match. -/
def tryNested (f : List Char → Option ℕ) : ℕ → List Char → Option ℕ
  | 0, _ => none
  | j + 1, rest =>
    match f (rest.drop (j + 1)) with
    | some m => some (2 + (j + 1) + m)
    | none => tryNested f j rest

/-- Matcher for the diagnostic-stripping regex of line 314 at one
position, returning the match length.  The alternatives (each starting
with a distinct character, so the PCRE alternation order does not
matter) are: a bracketed tag `[...]` (greedy to the last closing
bracket on the line), the literal `Conversion failed!`, a version
banner `v<digit>.<digit>` to end of line, a space followed by more
whitespace, and `- ` followed by whitespace and a recursive match.
`fuel` bounds the recursion of the last alternative. -/
def matchStripAt : ℕ → List Char → Option ℕ
  | 0, _ => none
  | fuel + 1, cs =>
    match cs with
    | '[' :: rest =>
      let line := rest.takeWhile (fun c => c != '\n')
      match lastIdxOf line ']' with
      | some i => some (i + 2)
      | none => none
    | 'C' :: _ =>
      if "Conversion failed!".data.isPrefixOf cs then some 18 else none
    | 'v' :: a :: '.' :: b :: rest =>
      if a.isDigit && b.isDigit then
        some (4 + (rest.takeWhile (fun c => c != '\n')).length)
      else none
    | ' ' :: rest =>
      let k := (rest.takeWhile isWsChar).length
      if 1 ≤ k then some (1 + k) else none
    | '-' :: ' ' :: rest =>
      let k := (rest.takeWhile isWsChar).length
      if 1 ≤ k then tryNested (matchStripAt fuel) k rest else none
    | _ => none

/-- Remove every match of the stripping regex, scanning left to right
(the `QString::replace` loop): at each position take the match found
there, if any, and continue after it; otherwise keep the character. -/
def stripGo : ℕ → List Char → List Char
  | 0, l => l
  | _ + 1, [] => []
  | fuel + 1, c :: rest =>
    match matchStripAt (c :: rest).length (c :: rest) with
    | some n =>
      if n == 0 then c :: stripGo fuel rest
      else stripGo fuel ((c :: rest).drop n)
    | none => c :: stripGo fuel rest

/-- The regex-replacement step of `parseOutput` (lines 311-317). -/
def stripDiagnostic (s : String) : String :=
  String.mk (stripGo (s.data.length + 1) s.data)

/-- Removal of leading and trailing whitespace (`QString::trimmed`). -/
def trimChars (l : List Char) : List Char :=
  ((l.dropWhile isWsChar).reverse.dropWhile isWsChar).reverse

/-- `MediaEncoder::parseOutput` (lines 305-319): select the tail of the
buffer after the progress (or fallback) marker, strip log tags, the
conversion-failed literal, version banners and whitespace runs, and
trim the result. -/
def parseOutput (output : String) : String :=
  String.mk (trimChars (stripDiagnostic (splitTail output)).data)

/- ===== Concrete sample inputs ===== -/

/-- H.264 entry of the video-codec catalog. -/
def codecH264 : Codec := ⟨"H.264", "libx264"⟩

/-- OPUS entry of the audio-codec catalog. -/
def codecOpus : Codec := ⟨"OPUS", "libopus"⟩

/-- The mp4 container. -/
def containerMp4 : Container := ⟨"mp4"⟩

/-- A 1920x1080, 120-second, 16:9 input. -/
def mdStd : Metadata := ⟨1920, 1080, 120, 16, 9⟩

/-- The end-to-end scenario of the spec: duration 120 s (in `mdStd`),
sizeKbps 8000, audioQuality 0.5, default floors/ceiling 64/16/256,
overshoot 0.02, no resize. -/
def oScenario : Options :=
  { videoCodec := some codecH264
    audioCodec := some codecOpus
    container := some containerMp4
    sizeKbps := some 8000
    audioQualityPercent := some (1 / 2)
    fps := some 30
    customArguments := some "" }

/-- The scenario with both output dimensions requested explicitly
(width 100, height 360). -/
def oBothDims : Options :=
  { oScenario with outputWidth := some 100, outputHeight := some 360 }

/-- Options with a container but no video codec. -/
def oContainerNoVideo : Options :=
  { audioCodec := some codecOpus, container := some containerMp4 }

/-- Audio-only options with no container. -/
def oAudioOnlyNoContainer : Options :=
  { audioCodec := some codecOpus }

/-- Valid video options whose custom arguments are the single
character `!`. -/
def oBangArgs : Options :=
  { videoCodec := some codecH264, container := some containerMp4,
    customArguments := some "!" }

/-- Valid video options whose custom arguments are the single
character `A`. -/
def oUpperArgs : Options :=
  { videoCodec := some codecH264, container := some containerMp4,
    customArguments := some "A" }

/-- Valid video options whose custom arguments are a semicolon. -/
def oSemiArgs : Options :=
  { videoCodec := some codecH264, container := some containerMp4,
    customArguments := some ";" }

/-- Options that pass validation but leave `fps` unset. -/
def oFpsUnset : Options :=
  { videoCodec := some codecH264, container := some containerMp4,
    customArguments := some "" }

/-- Options that pass validation with a size target but no video codec
(so no video bitrate is ever computed). -/
def oSizeNoVideo : Options :=
  { audioCodec := some codecOpus, container := some containerMp4,
    sizeKbps := some 1000, fps := some 30, customArguments := some "" }

/-- The allow-list as the claim words it — letters, digits, space,
hyphen, slash.  Stated from the spec only to compare against the
source's `allowedChar`; the source is `allowedChar`. -/
def specAllowedChar (c : Char) : Bool :=
  c.isAlpha || c.isDigit || c == ' ' || c == '-' || c == '/'

/- ===== Theorems ===== -/

/-- C1: at the spec's end-to-end scenario (duration 120 s, size 8000,
audio quality 0.5, floors 64/16, ceiling 256, overshoot 0.02, no
resize) the audio bitrate is 128 as claimed, but no video bitrate of 64
is produced: `computePixelRatio` reaches the dereference of the empty
`outputWidth` optional in its else branch (undefined behavior), so the
embedded `ComputeVideoBitrate` yields no value at all. -/
theorem c1_video_bitrate_at_spec_scenario :
    (encodePlan oScenario mdStd).audioBitrateKbps = some 128
    ∧ (encodePlan oScenario mdStd).videoBitrateKbps = none
    ∧ computePixelRatio oScenario mdStd = none := by
  refine ⟨by with_unfolding_all rfl, by with_unfolding_all rfl, by with_unfolding_all rfl⟩

/-- C2: the pixel-ratio computation does not behave as claimed: with no
explicit output dimension the code dereferences the empty `outputWidth`
optional (undefined behavior) instead of returning 1, and with both
dimensions set to 100x360 on a 1920x1080 16:9 input it ignores the
explicit width, derives width 640 from the height via the aspect ratio,
and returns 1/9 instead of the claimed outputPixels/inputPixels =
(100*360)/(1920*1080). -/
theorem c2_pixel_ratio_behavior :
    computePixelRatio oScenario mdStd = none
    ∧ computePixelRatio oBothDims mdStd = some (1 / 9)
    ∧ (1 : ℚ) / 9 ≠ (100 * 360 : ℚ) / (1920 * 1080) := by
  refine ⟨by with_unfolding_all rfl, by with_unfolding_all rfl, by norm_num⟩

/-- C6: validation of the container rule is inverted relative to the
claim: Options with a container but no video codec pass validation,
while audio-only Options with no container are rejected (by a message
speaking of a selected container). -/
theorem c6_container_rule_eval :
    validateOptions oContainerNoVideo = true
    ∧ validateOptions oAudioOnlyNoContainer = false := by
  refine ⟨rfl, rfl⟩

/-- C10: command construction dereferences optionals unconditionally:
two Options that pass validation (one with `fps` unset, one with a size
target but no video codec, hence no computed video bitrate) drive the
total embedding of `StartCompression` into its error branch. -/
theorem c10_unconditional_deref :
    (validateOptions oFpsUnset = true
      ∧ startCompressionCommand oFpsUnset (encodePlan oFpsUnset mdStd) "mp4" = none)
    ∧ (validateOptions oSizeNoVideo = true
      ∧ startCompressionCommand oSizeNoVideo (encodePlan oSizeNoVideo mdStd) "mp4" = none) := by
  refine ⟨⟨rfl, rfl⟩, ⟨rfl, rfl⟩⟩

/-- C4: the terminal outcome of `EndCompression` is `succeeded` exactly
when the process exited with status 0 and the declared output file can
be opened; in particular exit 0 with an unreadable output file fails. -/
theorem c4_terminal_outcome_iff (exitCode : ℤ) (canOpen : Bool) :
    (endCompressionNotif exitCode canOpen = Notif.succeeded
      ↔ exitCode = 0 ∧ canOpen = true)
    ∧ endCompressionNotif 0 false = Notif.failed := by
  constructor
  · unfold endCompressionNotif
    by_cases h : exitCode = 0 <;> cases canOpen <;> simp [h]
  · rfl

/-- C9 counterexample: a non-empty buffer consisting of exactly the
progress marker yields the empty diagnostic, refuting "returns a
non-empty string when the buffer is non-empty". -/
theorem c9_nonempty_buffer_empty_diagnostic :
    progressMarker ≠ "" ∧ parseOutput progressMarker = "" := by
  refine ⟨by decide, by with_unfolding_all rfl⟩

/-- C9 (amended): the diagnostic extraction returns the empty string on
the empty buffer, and a non-empty buffer may also yield the empty
string (for example when the buffer is exactly the progress marker). -/
theorem c9_diagnostic_empty_behavior :
    parseOutput "" = "" ∧ parseOutput progressMarker = "" := by
  refine ⟨by with_unfolding_all rfl, by with_unfolding_all rfl⟩

/-- C8 counterexample: a chunk whose timestamp (1 hour) exceeds the
120-second media duration produces progress 3000, refuting "an integer
in 0-100". -/
theorem c8_percent_over_100_counterexample :
    updateProgress 120 "" "time=01:00:00.00" = ("time=01:00:00.00", some 3000)
    ∧ ¬ ((3000 : ℤ) ≤ 100) := by
  refine ⟨by with_unfolding_all rfl, by decide⟩

/-- C5 counterexample: when the process reports an error and then
finishes with a non-zero exit (the crash pattern: Qt emits both
`errorOccurred` and `finished`), the request's trace carries TWO
terminal notifications — the `errorOccurred` connection made in the
constructor is never disconnected — refuting "exactly one terminal
notification per request" and "no notification after the terminal
one". -/
theorem c5_two_terminals_counterexample :
    encodeTrace 100 64 128 [PEvent.procError, PEvent.finished 1 false]
      = [Notif.started 64 128, Notif.failed, Notif.failed]
    ∧ (encodeTrace 100 64 128 [PEvent.procError, PEvent.finished 1 false]).countP isTerminal = 2 := by
  refine ⟨rfl, rfl⟩

/-- C7 counterexample: the character `!` is outside the claim's
allow-list (letters, digits, space, hyphen, slash) yet validation
accepts it, and the letter `A` is inside the claim's allow-list yet
validation rejects it — the source pattern accepts the ASCII range
space..slash and only lowercase letters. -/
theorem c7_allowlist_counterexample :
    (specAllowedChar '!' = false ∧ validateOptions oBangArgs = true)
    ∧ (specAllowedChar 'A' = true ∧ validateOptions oUpperArgs = false) := by
  refine ⟨⟨rfl, rfl⟩, ⟨rfl, rfl⟩⟩

/-- C3: the audio planner is invoked exactly when an audio codec is
selected, and then produces
`max(minAudioBitrateKbps, audioQualityPercent * maxAudioBitrateKbps)`
with an unset quality fraction behaving as 1. -/
theorem c3_audio_bitrate_formula (o : Options) (md : Metadata) :
    ((encodePlan o md).audioBitrateKbps.isSome = o.audioCodec.isSome)
    ∧ (o.audioCodec.isSome = true →
        (encodePlan o md).audioBitrateKbps
          = some (max o.minAudioBitrateKbps (o.audioQualityPercent.getD 1 * o.maxAudioBitrateKbps))) := by
  unfold encodePlan computeAudioBitrate
  cases ha : o.audioCodec.isSome <;>
    cases hv : o.videoCodec.isSome && o.sizeKbps.isSome <;>
      simp [ha, hv]

/-- Witness for C3 at the spec scenario's options. -/
theorem c3_audio_bitrate_formula_witness :
    oScenario.audioCodec.isSome = true
    ∧ (encodePlan oScenario mdStd).audioBitrateKbps
        = some (max oScenario.minAudioBitrateKbps (oScenario.audioQualityPercent.getD 1 * oScenario.maxAudioBitrateKbps)) :=
  ⟨rfl, (c3_audio_bitrate_formula oScenario mdStd).2 rfl⟩

/-- C7 (amended): when the remaining validation rules pass, validation
accepts custom arguments exactly when every character is in the
SOURCE's accepted set (ASCII space through slash, lowercase letters,
digits); and any custom-arguments string containing a semicolon is
always rejected. -/
theorem c7_custom_args_rule (o : Options) (s : String)
    (hs : o.customArguments = some s) :
    (otherRulesPass o = true → (validateOptions o = true ↔ s.data.all allowedChar = true))
    ∧ (';' ∈ s.data → validateOptions o = false) := by
  have hrule : ruleCustomArgs o = s.data.any (fun c => ! allowedChar c) := by
    unfold ruleCustomArgs
    rw [hs]
  constructor
  · intro hothers
    have hA : (ruleNoCodec o || ruleContainerCheck o || ruleWidth o || ruleHeight o
        || ruleAspectX o || ruleAspectY o || ruleFps o || ruleSpeed o) = false := by
      unfold otherRulesPass at hothers
      simpa using hothers
    unfold validateOptions
    rw [hA, hrule]
    simp [List.any_eq_true, List.all_eq_true]
  · intro hmem
    have h9 : ruleCustomArgs o = true := by
      rw [hrule]
      simp only [List.any_eq_true]
      exact ⟨';', hmem, by decide⟩
    unfold validateOptions
    rw [h9]
    simp

/-- Witness for C7: the semicolon string is rejected. -/
theorem c7_custom_args_rule_witness :
    oSemiArgs.customArguments = some ";"
    ∧ validateOptions oSemiArgs = false :=
  ⟨rfl, (c7_custom_args_rule oSemiArgs ";" rfl).2 (by decide)⟩

/-- C8 (amended): each chunk is appended to the accumulated buffer; a
chunk without a timestamp match produces no notification; a chunk with
a timestamp match produces the truncated percentage
`currentSeconds * 100 / mediaDuration`, which is nonnegative whenever
the parsed timestamp is valid but is not bounded by 100. -/
theorem c8_progress_update (dur : ℚ) (buffer chunk : String) (hdur : 0 < dur) :
    (updateProgress dur buffer chunk).1 = buffer ++ chunk
    ∧ (findTimeMatch chunk.data = none → (updateProgress dur buffer chunk).2 = none)
    ∧ (∀ hh mm ss sep, findTimeMatch chunk.data = some (hh, mm, ss, sep) →
        (updateProgress dur buffer chunk).2
          = some (cppTruncToInt ((timestampSeconds hh mm ss sep : ℚ) * 100 / dur))
        ∧ (0 ≤ timestampSeconds hh mm ss sep →
            0 ≤ cppTruncToInt ((timestampSeconds hh mm ss sep : ℚ) * 100 / dur))) := by
  refine ⟨rfl, ?_, ?_⟩
  · intro h
    simp [updateProgress, h]
  · intro hh mm ss sep h
    refine ⟨by simp [updateProgress, h], ?_⟩
    intro hts
    have hq : 0 ≤ (timestampSeconds hh mm ss sep : ℚ) * 100 / dur := by
      apply div_nonneg
      · exact mul_nonneg (by exact_mod_cast hts) (by norm_num)
      · exact le_of_lt hdur
    unfold cppTruncToInt
    rw [if_pos hq]
    exact Int.le_floor.mpr (by exact_mod_cast hq)

/-- Witness for C8 on a concrete chunk with a timestamp. -/
theorem c8_progress_update_witness :
    (0 : ℚ) < 120
    ∧ (updateProgress 120 "" "time=00:01:00.00").1 = "" ++ "time=00:01:00.00" :=
  ⟨by norm_num, (c8_progress_update 120 "" "time=00:01:00.00" (by norm_num)).1⟩

/-- Once both connections are released (after `EndCompression`), no
further event except a process-level error can produce a notification;
in runs without process errors the remaining trace is empty. -/
theorem runEvents_disconnected (dur : ℚ) (post : List PEvent)
    (h : PEvent.procError ∉ post) :
    ∀ buf, runEvents dur ⟨false, false, buf⟩ post = [] := by
  induction post with
  | nil => intro buf; rfl
  | cons e rest ih =>
    intro buf
    have hrest : PEvent.procError ∉ rest := fun hm => h (List.mem_cons_of_mem _ hm)
    cases e with
    | readyRead c =>
      simpa [runEvents, stepEvent] using ih hrest buf
    | finished c op =>
      simpa [runEvents, stepEvent] using ih hrest buf
    | procError =>
      exact absurd (List.mem_cons_self _ _) h

/-- While both connections are live, incremental-output events produce
only progress notifications, and the first finish event produces the
single terminal notification, after which (absent process errors) the
trace ends. -/
theorem runEvents_live (dur : ℚ) (pre : List PEvent)
    (hpre : ∀ e ∈ pre, isReadyRead e = true) (c : ℤ) (op : Bool)
    (post : List PEvent) (hpost : PEvent.procError ∉ post) :
    ∀ buf, ∃ ps : List ℤ,
      runEvents dur ⟨true, true, buf⟩ (pre ++ PEvent.finished c op :: post)
        = ps.map Notif.progress ++ [endCompressionNotif c op] := by
  induction pre with
  | nil =>
    intro buf
    refine ⟨[], ?_⟩
    simp [runEvents, stepEvent, runEvents_disconnected dur post hpost]
  | cons e rest ih =>
    intro buf
    have he := hpre e (List.mem_cons_self e _)
    cases e with
    | readyRead chunk =>
      obtain ⟨ps, hps⟩ := ih (fun x hx => hpre x (List.mem_cons_of_mem _ hx))
        ((updateProgress dur buf chunk).1)
      cases hopt : (updateProgress dur buf chunk).2 with
      | none =>
        refine ⟨ps, ?_⟩
        simp [runEvents, stepEvent, hopt, hps]
      | some p =>
        refine ⟨p :: ps, ?_⟩
        simp [runEvents, stepEvent, hopt, hps]
    | finished c2 op2 => simp [isReadyRead] at he
    | procError => simp [isReadyRead] at he

/-- C5 (amended): for every request whose delivered events are
incremental-output chunks followed by a finish event, with no
process-level error reported, the trace is exactly the `started`
notification, then progress notifications only, then one terminal
notification (`succeeded` or `failed`) with nothing after it.  (When
the process DOES report an error, the permanently-connected
`errorOccurred` handler emits an extra failure notification; see the
counterexample.) -/
theorem c5_notification_order (dur v a : ℚ) (pre post : List PEvent) (c : ℤ) (op : Bool)
    (hpre : ∀ e ∈ pre, isReadyRead e = true) (hpost : PEvent.procError ∉ post) :
    ∃ ps : List ℤ,
      encodeTrace dur v a (pre ++ PEvent.finished c op :: post)
        = Notif.started v a :: (ps.map Notif.progress ++ [endCompressionNotif c op])
      ∧ (endCompressionNotif c op = Notif.succeeded ∨ endCompressionNotif c op = Notif.failed) := by
  obtain ⟨ps, hps⟩ := runEvents_live dur pre hpre c op post hpost ""
  refine ⟨ps, ?_, ?_⟩
  · simp [encodeTrace, hps]
  · unfold endCompressionNotif
    by_cases hc : c ≠ 0
    · rw [if_pos hc]
      exact Or.inr rfl
    · rw [if_neg hc]
      cases op
      · exact Or.inr rfl
      · exact Or.inl rfl

/-- Witness for C5 on a concrete clean run: one progress chunk, then a
successful finish. -/
theorem c5_notification_order_witness :
    (∀ e ∈ [PEvent.readyRead "time=00:01:00.00"], isReadyRead e = true)
    ∧ PEvent.procError ∉ ([] : List PEvent)
    ∧ ∃ ps : List ℤ,
        encodeTrace 120 64 128 ([PEvent.readyRead "time=00:01:00.00"] ++ PEvent.finished 0 true :: [])
          = Notif.started 64 128 :: (ps.map Notif.progress ++ [endCompressionNotif 0 true])
        ∧ (endCompressionNotif 0 true = Notif.succeeded ∨ endCompressionNotif 0 true = Notif.failed) :=
  ⟨by decide, by simp,
   c5_notification_order 120 64 128 [PEvent.readyRead "time=00:01:00.00"] [] 0 true
     (by decide) (by simp)⟩
